import Mathlib

/-!
# Verification of the Instabids business-protection core

Shallow embedding of the three security components of the repository
(`src/core/security/cost_breaker.py`, `violation_tracker.py`,
`contact_filter.py`) together with proofs and refutations of the frozen
claims about them.

Modelling conventions, used throughout:
* Python `float` values are modelled as rationals (`ℚ`); the cost-breaker
  logic only adds and compares costs, so no claim depends on binary
  floating-point rounding.
* `datetime` values are modelled as a UTC calendar-day index, an hour
  index, and an absolute count of seconds since the epoch
  (`timedelta.seconds` on a non-negative difference is the remainder of
  the difference modulo 86400, which the model reproduces).
* The external MCP persistence layer (Redis / Supabase) is out of scope
  per the spec (§1, §6); its observable answers enter the model as
  explicit environment/world parameters, and its unobserved side effects
  (pure logging, event publication) are dropped.
-/

namespace CostBreaker

/-- The `CostViolationType` enum of `cost_breaker.py`. -/
inductive CostViolationType where
  | per_event_exceeded
  | daily_limit_exceeded
  | hourly_rate_exceeded
  | suspicious_pattern
  | emergency_shutdown
  deriving DecidableEq, Repr

/-- One entry of `violation_history`.  The Python code stores a dict; the
fields kept here are exactly the ones later read back by
`_detect_suspicious_patterns` (`"estimated_cost"` — absent for emergency
shutdown events, hence `Option` — and `"timestamp"`). -/
structure CostViolation where
  vtype : CostViolationType
  estimated_cost : Option ℚ
  timestamp : Nat
  deriving DecidableEq, Repr

/-- The mutable state of a `CostCircuitBreaker` instance: the four
configured limits and the fields set in `__init__`. -/
structure BreakerState where
  daily_limit : ℚ
  per_event_limit : ℚ
  hourly_limit : ℚ
  emergency_threshold : ℚ
  daily_cost : ℚ
  hourly_cost : ℚ
  current_hour : Nat
  last_reset : Nat
  is_shutdown : Bool
  shutdown_reason : Option String
  violation_history : List CostViolation
  deriving DecidableEq, Repr

/-- A wall-clock instant (`datetime.utcnow()`): date index, hour, and
absolute seconds. -/
structure Time where
  day : Nat
  hour : Nat
  abs : Nat
  deriving DecidableEq, Repr

/-- Answer of the external store during one call: the result of the redis
`get_daily_cost` MCP call inside `_update_cost_tracking`.  `some v` models
a response with `status == "success"` and value `v`; `none` models a
failed or non-success response (the Python code then keeps the in-memory
value: the exception is caught and logged). -/
structure BreakerEnv where
  redisDaily : Option ℚ
  deriving DecidableEq, Repr

/-- `_get_current_costs`. -/
structure CurrentCosts where
  daily_cost : ℚ
  daily_limit : ℚ
  daily_remaining : ℚ
  hourly_cost : ℚ
  hourly_limit : ℚ
  hourly_remaining : ℚ
  per_event_limit : ℚ
  emergency_threshold : ℚ
  deriving DecidableEq, Repr

/-- `CostCircuitBreaker._get_current_costs`. -/
def getCurrentCosts (st : BreakerState) : CurrentCosts where
  daily_cost := st.daily_cost
  daily_limit := st.daily_limit
  daily_remaining := max 0 (st.daily_limit - st.daily_cost)
  hourly_cost := st.hourly_cost
  hourly_limit := st.hourly_limit
  hourly_remaining := max 0 (st.hourly_limit - st.hourly_cost)
  per_event_limit := st.per_event_limit
  emergency_threshold := st.emergency_threshold

/-- The value returned by `check_cost_approval`.  `warnings` carries the
machine-readable codes the source puts in the `"warnings"` list
(`"EMERGENCY_SHUTDOWN_ACTIVE"`, `"PER_EVENT_LIMIT_EXCEEDED"`,
`"DAILY_LIMIT_EXCEEDED"`, `"HOURLY_RATE_EXCEEDED"`, or an advisory
pattern warning); `reason` is the human-readable message (modelled up to
its fixed prefix, without the interpolated dollar amounts). -/
structure Decision where
  approved : Bool
  reason : String
  current_costs : CurrentCosts
  warnings : List String
  deriving DecidableEq, Repr

/-- Python `l[-n:]`. -/
def pyTakeLast {α : Type} (n : Nat) (l : List α) : List α :=
  l.drop (l.length - n)

/-- `CostCircuitBreaker._log_cost_violation`: append to
`violation_history`, keeping only the last 100 entries.  (The Supabase
logging call and the administrator alert have no observable effect on the
state.) -/
def logCostViolation (v : CostViolation) (st : BreakerState) : BreakerState :=
  let h := st.violation_history ++ [v]
  let h := if 100 < h.length then pyTakeLast 100 h else h
  { st with violation_history := h }

/-- `CostCircuitBreaker._trigger_emergency_shutdown`: set the breaker
OPEN, record the reason, and log an `emergency_shutdown` violation (the
shutdown event dict has no `"estimated_cost"` key).  The event-bus
publication and administrator alert have no effect on the state. -/
def triggerEmergencyShutdown (reason : String) (now : Time) (st : BreakerState) :
    BreakerState :=
  let st := { st with is_shutdown := true, shutdown_reason := some reason }
  logCostViolation
    { vtype := .emergency_shutdown, estimated_cost := none, timestamp := now.abs } st

/-- First step of `_update_cost_tracking`: reset daily costs if a new day
is observed. -/
def resetDaily (now : Time) (st : BreakerState) : BreakerState :=
  if st.last_reset < now.day then
    { st with daily_cost := 0, last_reset := now.day } else st

/-- Second step of `_update_cost_tracking`: reset hourly costs if a new
hour is observed. -/
def resetHourly (now : Time) (st : BreakerState) : BreakerState :=
  if now.hour ≠ st.current_hour then
    { st with hourly_cost := 0, current_hour := now.hour } else st

/-- Third step of `_update_cost_tracking`: overwrite `daily_cost` with the
store's answer when the redis `get_daily_cost` call reports success (on
failure the exception is caught and the in-memory value kept). -/
def dailyFromStore (env : BreakerEnv) (st : BreakerState) : BreakerState :=
  match env.redisDaily with
  | some v => { st with daily_cost := v }
  | none => st

/-- `CostCircuitBreaker._update_cost_tracking`: lazily zero the daily and
hourly totals at date/hour boundaries, then overwrite `daily_cost` with
the store's answer. -/
def updateCostTracking (now : Time) (env : BreakerEnv) (st : BreakerState) :
    BreakerState :=
  dailyFromStore env (resetHourly now (resetDaily now st))

/-- `CostCircuitBreaker._detect_suspicious_patterns`.  Python's
`(utcnow() - t).seconds < 300` on a non-negative difference compares the
difference modulo 86400.  The float literals `0.8` and `0.5` become the
rationals 4/5 and 1/2. -/
def detectSuspiciousPatterns (est : ℚ) (now : Time) (st : BreakerState) :
    Option String :=
  let highFreq :=
    if st.per_event_limit * (4/5) < est then
      let recent := (pyTakeLast 10 st.violation_history).filter
        (fun v => (now.abs - v.timestamp) % 86400 < 300)
      if 3 < recent.length then some "HIGH_FREQUENCY_EXPENSIVE_OPERATIONS" else none
    else none
  match highFreq with
  | some w => some w
  | none =>
    if 5 < st.violation_history.length then
      let recentCosts := (pyTakeLast 5 st.violation_history).map
        (fun v => v.estimated_cost.getD 0)
      if recentCosts.all (fun c => st.per_event_limit * (1/2) < c) then
        some "RAPID_COST_ESCALATION"
      else none
    else none

/-- `CostCircuitBreaker.check_cost_approval`.  The `operation_type` and
`context` arguments only flow into logged dicts, never into the decision
or the state, and are omitted.  No operation of the model can raise, so
the `except` fail-safe branch (reject with `"SYSTEM_ERROR"`) is
unreachable and not modelled. -/
def checkCostApproval (estimated_cost : ℚ) (now : Time) (env : BreakerEnv)
    (st : BreakerState) : Decision × BreakerState :=
  if st.is_shutdown then
    ({ approved := false,
       reason := "System in emergency shutdown",
       current_costs := getCurrentCosts st,
       warnings := ["EMERGENCY_SHUTDOWN_ACTIVE"] }, st)
  else
    let st1 := updateCostTracking now env st
    if st1.per_event_limit < estimated_cost then
      let st2 := logCostViolation
        { vtype := .per_event_exceeded, estimated_cost := some estimated_cost,
          timestamp := now.abs } st1
      ({ approved := false,
         reason := "Per-event cost limit exceeded",
         current_costs := getCurrentCosts st2,
         warnings := ["PER_EVENT_LIMIT_EXCEEDED"] }, st2)
    else
      let projected := st1.daily_cost + estimated_cost
      if st1.daily_limit < projected then
        let st2 := logCostViolation
          { vtype := .daily_limit_exceeded, estimated_cost := some estimated_cost,
            timestamp := now.abs } st1
        let st3 := if st2.emergency_threshold < projected then
            triggerEmergencyShutdown
              "Daily cost projection exceeds emergency threshold" now st2
          else st2
        ({ approved := false,
           reason := "Daily cost limit would be exceeded",
           current_costs := getCurrentCosts st3,
           warnings := ["DAILY_LIMIT_EXCEEDED"] }, st3)
      else
        let projectedHourly := st1.hourly_cost + estimated_cost
        if st1.hourly_limit < projectedHourly then
          let st2 := logCostViolation
            { vtype := .hourly_rate_exceeded, estimated_cost := some estimated_cost,
              timestamp := now.abs } st1
          ({ approved := false,
             reason := "Hourly rate limit would be exceeded",
             current_costs := getCurrentCosts st2,
             warnings := ["HOURLY_RATE_EXCEEDED"] }, st2)
        else
          let pw := detectSuspiciousPatterns estimated_cost now st1
          ({ approved := true,
             reason := "Cost approval granted",
             current_costs := getCurrentCosts st1,
             warnings := pw.toList }, st1)

/-- `CostCircuitBreaker.record_actual_cost`: add the actual cost to both
running totals (the redis/Supabase persistence calls have no observable
effect on the in-memory state), then trip the breaker if the daily total
exceeds the emergency threshold.  `record_actual_cost` does not call
`_update_cost_tracking`. -/
def recordActualCost (actual_cost : ℚ) (now : Time) (st : BreakerState) :
    BreakerState :=
  let st := { st with
    daily_cost := st.daily_cost + actual_cost,
    hourly_cost := st.hourly_cost + actual_cost }
  if st.emergency_threshold < st.daily_cost then
    triggerEmergencyShutdown "Emergency threshold exceeded" now st
  else st

/-- Return value of `reset_circuit_breaker`. -/
structure ResetResult where
  success : Bool
  reason : String
  deriving DecidableEq, Repr

/-- `CostCircuitBreaker.reset_circuit_breaker`.  The `reason` argument is
only logged and is omitted.  The single hard-coded admin key is compared
by string equality; nothing inside the `try` of the success branch can
raise in the model, so the error branch is unreachable. -/
def resetCircuitBreaker (admin_key : String) (st : BreakerState) :
    ResetResult × BreakerState :=
  if admin_key ≠ "admin_reset_key_placeholder" then
    ({ success := false, reason := "Invalid administrative key" }, st)
  else
    ({ success := true, reason := "Circuit breaker reset successfully" },
     { st with is_shutdown := false, shutdown_reason := none })

theorem logCostViolation_daily_cost (v : CostViolation) (st : BreakerState) :
    (logCostViolation v st).daily_cost = st.daily_cost := rfl

theorem logCostViolation_hourly_cost (v : CostViolation) (st : BreakerState) :
    (logCostViolation v st).hourly_cost = st.hourly_cost := rfl

theorem triggerEmergencyShutdown_daily_cost (r : String) (now : Time) (st : BreakerState) :
    (triggerEmergencyShutdown r now st).daily_cost = st.daily_cost := rfl

theorem triggerEmergencyShutdown_hourly_cost (r : String) (now : Time) (st : BreakerState) :
    (triggerEmergencyShutdown r now st).hourly_cost = st.hourly_cost := rfl

theorem triggerEmergencyShutdown_is_shutdown (r : String) (now : Time) (st : BreakerState) :
    (triggerEmergencyShutdown r now st).is_shutdown = true := rfl

theorem resetDaily_per_event_limit (now : Time) (st : BreakerState) :
    (resetDaily now st).per_event_limit = st.per_event_limit := by
  unfold resetDaily; split <;> rfl

theorem resetDaily_daily_limit (now : Time) (st : BreakerState) :
    (resetDaily now st).daily_limit = st.daily_limit := by
  unfold resetDaily; split <;> rfl

theorem resetDaily_hourly_limit (now : Time) (st : BreakerState) :
    (resetDaily now st).hourly_limit = st.hourly_limit := by
  unfold resetDaily; split <;> rfl

theorem resetDaily_emergency_threshold (now : Time) (st : BreakerState) :
    (resetDaily now st).emergency_threshold = st.emergency_threshold := by
  unfold resetDaily; split <;> rfl

theorem resetDaily_is_shutdown (now : Time) (st : BreakerState) :
    (resetDaily now st).is_shutdown = st.is_shutdown := by
  unfold resetDaily; split <;> rfl

theorem resetHourly_per_event_limit (now : Time) (st : BreakerState) :
    (resetHourly now st).per_event_limit = st.per_event_limit := by
  unfold resetHourly; split <;> rfl

theorem resetHourly_daily_limit (now : Time) (st : BreakerState) :
    (resetHourly now st).daily_limit = st.daily_limit := by
  unfold resetHourly; split <;> rfl

theorem resetHourly_hourly_limit (now : Time) (st : BreakerState) :
    (resetHourly now st).hourly_limit = st.hourly_limit := by
  unfold resetHourly; split <;> rfl

theorem resetHourly_emergency_threshold (now : Time) (st : BreakerState) :
    (resetHourly now st).emergency_threshold = st.emergency_threshold := by
  unfold resetHourly; split <;> rfl

theorem resetHourly_is_shutdown (now : Time) (st : BreakerState) :
    (resetHourly now st).is_shutdown = st.is_shutdown := by
  unfold resetHourly; split <;> rfl

theorem resetHourly_daily_cost (now : Time) (st : BreakerState) :
    (resetHourly now st).daily_cost = st.daily_cost := by
  unfold resetHourly; split <;> rfl

theorem dailyFromStore_per_event_limit (env : BreakerEnv) (st : BreakerState) :
    (dailyFromStore env st).per_event_limit = st.per_event_limit := by
  unfold dailyFromStore; cases env.redisDaily <;> rfl

theorem dailyFromStore_daily_limit (env : BreakerEnv) (st : BreakerState) :
    (dailyFromStore env st).daily_limit = st.daily_limit := by
  unfold dailyFromStore; cases env.redisDaily <;> rfl

theorem dailyFromStore_hourly_limit (env : BreakerEnv) (st : BreakerState) :
    (dailyFromStore env st).hourly_limit = st.hourly_limit := by
  unfold dailyFromStore; cases env.redisDaily <;> rfl

theorem dailyFromStore_emergency_threshold (env : BreakerEnv) (st : BreakerState) :
    (dailyFromStore env st).emergency_threshold = st.emergency_threshold := by
  unfold dailyFromStore; cases env.redisDaily <;> rfl

theorem dailyFromStore_is_shutdown (env : BreakerEnv) (st : BreakerState) :
    (dailyFromStore env st).is_shutdown = st.is_shutdown := by
  unfold dailyFromStore; cases env.redisDaily <;> rfl

theorem dailyFromStore_hourly_cost (env : BreakerEnv) (st : BreakerState) :
    (dailyFromStore env st).hourly_cost = st.hourly_cost := by
  unfold dailyFromStore; cases env.redisDaily <;> rfl

theorem updateCostTracking_per_event_limit (now : Time) (env : BreakerEnv)
    (st : BreakerState) :
    (updateCostTracking now env st).per_event_limit = st.per_event_limit := by
  unfold updateCostTracking
  rw [dailyFromStore_per_event_limit, resetHourly_per_event_limit,
    resetDaily_per_event_limit]

theorem updateCostTracking_daily_limit (now : Time) (env : BreakerEnv)
    (st : BreakerState) :
    (updateCostTracking now env st).daily_limit = st.daily_limit := by
  unfold updateCostTracking
  rw [dailyFromStore_daily_limit, resetHourly_daily_limit, resetDaily_daily_limit]

theorem updateCostTracking_hourly_limit (now : Time) (env : BreakerEnv)
    (st : BreakerState) :
    (updateCostTracking now env st).hourly_limit = st.hourly_limit := by
  unfold updateCostTracking
  rw [dailyFromStore_hourly_limit, resetHourly_hourly_limit, resetDaily_hourly_limit]

theorem updateCostTracking_emergency_threshold (now : Time) (env : BreakerEnv)
    (st : BreakerState) :
    (updateCostTracking now env st).emergency_threshold = st.emergency_threshold := by
  unfold updateCostTracking
  rw [dailyFromStore_emergency_threshold, resetHourly_emergency_threshold,
    resetDaily_emergency_threshold]

theorem updateCostTracking_is_shutdown (now : Time) (env : BreakerEnv)
    (st : BreakerState) :
    (updateCostTracking now env st).is_shutdown = st.is_shutdown := by
  unfold updateCostTracking
  rw [dailyFromStore_is_shutdown, resetHourly_is_shutdown, resetDaily_is_shutdown]

theorem logCostViolation_emergency_threshold (v : CostViolation) (st : BreakerState) :
    (logCostViolation v st).emergency_threshold = st.emergency_threshold := rfl

/-- Example breaker state in the OPEN (tripped) position, with the
configuration of the spec's worked example. -/
def exOpen : BreakerState where
  daily_limit := 100
  per_event_limit := 5
  hourly_limit := 100
  emergency_threshold := 150
  daily_cost := 152
  hourly_cost := 20
  current_hour := 3
  last_reset := 10
  is_shutdown := true
  shutdown_reason := some "Daily cost projection exceeds emergency threshold"
  violation_history := []

/-- Example breaker state in the CLOSED position, close to the daily
limit. -/
def exClosed : BreakerState where
  daily_limit := 100
  per_event_limit := 5
  hourly_limit := 100
  emergency_threshold := 150
  daily_cost := 148
  hourly_cost := 20
  current_hour := 3
  last_reset := 10
  is_shutdown := false
  shutdown_reason := none
  violation_history := []

/-- Example instant: same day/hour as the example states, so lazy resets
do not fire. -/
def exTime : Time where
  day := 10
  hour := 3
  abs := 1000000

/-- Example environment in which the store read fails, so the in-memory
daily total is kept. -/
def exEnv : BreakerEnv where
  redisDaily := none

/-- **C1.** Once a `check` whose projected daily total exceeds the
emergency threshold has tripped the breaker to OPEN, every subsequent
`check` — for any estimated cost — returns `approved = false` with the
emergency-shutdown code (`warnings = ["EMERGENCY_SHUTDOWN_ACTIVE"]`, the
code's rendering of `EMERGENCY_SHUTDOWN`) and leaves the state, still
OPEN, unchanged, until a reset with the exact admin key succeeds and
clears the breaker back to CLOSED; an unauthorized reset changes
nothing. -/
theorem c1_open_breaker_rejects_until_reset
    (st : BreakerState) (h : st.is_shutdown = true)
    (est : ℚ) (now : Time) (env : BreakerEnv) (key : String)
    (st0 : BreakerState) (est0 : ℚ) (now0 : Time) (env0 : BreakerEnv)
    (h0 : st0.is_shutdown = false)
    (hpe : est0 ≤ (updateCostTracking now0 env0 st0).per_event_limit)
    (hdl : st0.daily_limit < (updateCostTracking now0 env0 st0).daily_cost + est0)
    (het : st0.emergency_threshold < (updateCostTracking now0 env0 st0).daily_cost + est0) :
    ((checkCostApproval est0 now0 env0 st0).2.is_shutdown = true
      ∧ (checkCostApproval est0 now0 env0 st0).1.approved = false
      ∧ (checkCostApproval est0 now0 env0 st0).1.warnings = ["DAILY_LIMIT_EXCEEDED"])
    ∧ ((checkCostApproval est now env st).1.approved = false
      ∧ (checkCostApproval est now env st).1.warnings = ["EMERGENCY_SHUTDOWN_ACTIVE"]
      ∧ (checkCostApproval est now env st).2 = st)
    ∧ (key ≠ "admin_reset_key_placeholder" →
        (resetCircuitBreaker key st).1.success = false
          ∧ (resetCircuitBreaker key st).2 = st)
    ∧ ((resetCircuitBreaker "admin_reset_key_placeholder" st).1.success = true
      ∧ (resetCircuitBreaker "admin_reset_key_placeholder" st).2.is_shutdown = false) := by
  have hpe' : ¬ ((updateCostTracking now0 env0 st0).per_event_limit < est0) :=
    not_lt.mpr hpe
  have hdl' : (updateCostTracking now0 env0 st0).daily_limit
      < (updateCostTracking now0 env0 st0).daily_cost + est0 := by
    rw [updateCostTracking_daily_limit]; exact hdl
  have het' : (logCostViolation
        { vtype := .daily_limit_exceeded, estimated_cost := some est0,
          timestamp := now0.abs } (updateCostTracking now0 env0 st0)).emergency_threshold
      < (updateCostTracking now0 env0 st0).daily_cost + est0 := by
    rw [logCostViolation_emergency_threshold, updateCostTracking_emergency_threshold]
    exact het
  refine ⟨?_, ?_, ?_, ?_⟩
  · simp only [checkCostApproval, h0, Bool.false_eq_true, if_false,
      if_neg hpe', if_pos hdl', if_pos het']
    exact ⟨triggerEmergencyShutdown_is_shutdown _ _ _, by trivial, by trivial⟩
  · simp only [checkCostApproval, h, if_true]
    exact ⟨by trivial, by trivial, by trivial⟩
  · intro hk
    simp only [resetCircuitBreaker, if_pos hk]
    exact ⟨by trivial, by trivial⟩
  · simp only [resetCircuitBreaker, if_neg (not_not_intro rfl)]
    exact ⟨by trivial, by trivial⟩

theorem exClosed_update_daily_cost :
    (updateCostTracking exTime exEnv exClosed).daily_cost = 148 := by
  simp [updateCostTracking, dailyFromStore, resetHourly, resetDaily,
    exClosed, exTime, exEnv]

theorem exClosed_update_hourly_cost :
    (updateCostTracking exTime exEnv exClosed).hourly_cost = 20 := by
  simp [updateCostTracking, dailyFromStore, resetHourly, resetDaily,
    exClosed, exTime, exEnv]

theorem exClosed_update50_daily_cost :
    (updateCostTracking exTime { redisDaily := some 50 } exClosed).daily_cost = 50 := by
  simp [updateCostTracking, dailyFromStore, resetHourly, resetDaily,
    exClosed, exTime]

theorem exClosed_update50_hourly_cost :
    (updateCostTracking exTime { redisDaily := some 50 } exClosed).hourly_cost = 20 := by
  simp [updateCostTracking, dailyFromStore, resetHourly, resetDaily,
    exClosed, exTime]

/-- Witness for C1 at concrete inputs: the OPEN example state rejects a
`check(0.01)`, the CLOSED example state trips on a `check(4)` whose
projected total `148 + 4 = 152` exceeds the threshold `150`, and resets
with a wrong and with the exact key behave as stated. -/
theorem c1_open_breaker_rejects_until_reset_witness :
    ((checkCostApproval 4 exTime exEnv exClosed).2.is_shutdown = true
      ∧ (checkCostApproval 4 exTime exEnv exClosed).1.approved = false
      ∧ (checkCostApproval 4 exTime exEnv exClosed).1.warnings = ["DAILY_LIMIT_EXCEEDED"])
    ∧ ((checkCostApproval (1/100) exTime exEnv exOpen).1.approved = false
      ∧ (checkCostApproval (1/100) exTime exEnv exOpen).1.warnings
          = ["EMERGENCY_SHUTDOWN_ACTIVE"]
      ∧ (checkCostApproval (1/100) exTime exEnv exOpen).2 = exOpen)
    ∧ ("bad_key" ≠ "admin_reset_key_placeholder" →
        (resetCircuitBreaker "bad_key" exOpen).1.success = false
          ∧ (resetCircuitBreaker "bad_key" exOpen).2 = exOpen)
    ∧ ((resetCircuitBreaker "admin_reset_key_placeholder" exOpen).1.success = true
      ∧ (resetCircuitBreaker "admin_reset_key_placeholder" exOpen).2.is_shutdown = false) :=
  c1_open_breaker_rejects_until_reset exOpen rfl (1/100) exTime exEnv "bad_key"
    exClosed 4 exTime exEnv rfl
    (by rw [updateCostTracking_per_event_limit]; norm_num [exClosed])
    (by rw [exClosed_update_daily_cost]; norm_num [exClosed])
    (by rw [exClosed_update_daily_cost]; norm_num [exClosed])

/-- **C3.** A `check` call never commits the estimated cost: after any
`check`, the daily and hourly totals are exactly what
`_update_cost_tracking` produced (or exactly the old totals when the
breaker is OPEN) — an expression independent of `estimated_cost` — while
`record_actual_cost` adds exactly the recorded actual cost to both
totals. -/
theorem c3_check_never_commits_estimated_cost
    (est actual : ℚ) (now : Time) (env : BreakerEnv) (st : BreakerState) :
    ((checkCostApproval est now env st).2.daily_cost =
      if st.is_shutdown then st.daily_cost else (updateCostTracking now env st).daily_cost)
    ∧ ((checkCostApproval est now env st).2.hourly_cost =
      if st.is_shutdown then st.hourly_cost else (updateCostTracking now env st).hourly_cost)
    ∧ (recordActualCost actual now st).daily_cost = st.daily_cost + actual
    ∧ (recordActualCost actual now st).hourly_cost = st.hourly_cost + actual := by
  refine ⟨?_, ?_, ?_, ?_⟩
  · by_cases h : st.is_shutdown
    · simp only [checkCostApproval, h, if_true]
    · simp only [checkCostApproval, h, Bool.false_eq_true, if_false]
      split
      · exact logCostViolation_daily_cost _ _
      · split
        · split
          · rw [triggerEmergencyShutdown_daily_cost, logCostViolation_daily_cost]
          · exact logCostViolation_daily_cost _ _
        · split
          · exact logCostViolation_daily_cost _ _
          · rfl
  · by_cases h : st.is_shutdown
    · simp only [checkCostApproval, h, if_true]
    · simp only [checkCostApproval, h, Bool.false_eq_true, if_false]
      split
      · exact logCostViolation_hourly_cost _ _
      · split
        · split
          · rw [triggerEmergencyShutdown_hourly_cost, logCostViolation_hourly_cost]
          · exact logCostViolation_hourly_cost _ _
        · split
          · exact logCostViolation_hourly_cost _ _
          · rfl
  · simp only [recordActualCost]
    split
    · rw [triggerEmergencyShutdown_daily_cost]
    · rfl
  · simp only [recordActualCost]
    split
    · rw [triggerEmergencyShutdown_hourly_cost]
    · rfl

/-- **C7.** With `per_event_limit = 5` and `daily_limit = 100` (and the
default `hourly_limit = 100`, with the hourly total never exceeding the
daily total), a `check(4)` is approved while the daily total plus 4 stays
within 100; a `check(4)` whose projected total exceeds 100 is rejected
with `DAILY_LIMIT_EXCEEDED`; and a `check(6)` is rejected with the
per-event code regardless of the totals, the per-event test preceding the
daily test. -/
theorem c7_per_event_and_daily_limits
    (st : BreakerState) (now : Time) (env : BreakerEnv)
    (h0 : st.is_shutdown = false)
    (hpe : st.per_event_limit = 5)
    (hdl : st.daily_limit = 100)
    (hhl : st.hourly_limit = 100)
    (hhd : (updateCostTracking now env st).hourly_cost
      ≤ (updateCostTracking now env st).daily_cost) :
    ((updateCostTracking now env st).daily_cost + 4 ≤ 100 →
      (checkCostApproval 4 now env st).1.approved = true)
    ∧ (100 < (updateCostTracking now env st).daily_cost + 4 →
      (checkCostApproval 4 now env st).1.approved = false
        ∧ (checkCostApproval 4 now env st).1.warnings = ["DAILY_LIMIT_EXCEEDED"])
    ∧ ((checkCostApproval 6 now env st).1.approved = false
      ∧ (checkCostApproval 6 now env st).1.warnings = ["PER_EVENT_LIMIT_EXCEEDED"]) := by
  have hpe4 : ¬ ((updateCostTracking now env st).per_event_limit < (4 : ℚ)) := by
    rw [updateCostTracking_per_event_limit, hpe]; norm_num
  refine ⟨?_, ?_, ?_⟩
  · intro hd
    have hdaily : ¬ ((updateCostTracking now env st).daily_limit
        < (updateCostTracking now env st).daily_cost + 4) := by
      rw [updateCostTracking_daily_limit, hdl]; exact not_lt.mpr hd
    have hhour : ¬ ((updateCostTracking now env st).hourly_limit
        < (updateCostTracking now env st).hourly_cost + 4) := by
      rw [updateCostTracking_hourly_limit, hhl]
      exact not_lt.mpr (by linarith)
    simp only [checkCostApproval, h0, Bool.false_eq_true, if_false,
      if_neg hpe4, if_neg hdaily, if_neg hhour]
  · intro hd
    have hdaily : (updateCostTracking now env st).daily_limit
        < (updateCostTracking now env st).daily_cost + 4 := by
      rw [updateCostTracking_daily_limit, hdl]; exact hd
    simp only [checkCostApproval, h0, Bool.false_eq_true, if_false,
      if_neg hpe4, if_pos hdaily]
    exact ⟨by trivial, by trivial⟩
  · have hpe6 : (updateCostTracking now env st).per_event_limit < (6 : ℚ) := by
      rw [updateCostTracking_per_event_limit, hpe]; norm_num
    simp only [checkCostApproval, h0, Bool.false_eq_true, if_false, if_pos hpe6]
    exact ⟨by trivial, by trivial⟩

/-- Witness for C7: the example CLOSED state has totals `daily = 148`, so
with redis reporting 50 the post-update total is 50: `check(4)` is
approved; with the in-memory 148 kept, `148 + 4 > 100` is rejected with
`DAILY_LIMIT_EXCEEDED`; `check(6)` is rejected with the per-event code. -/
theorem c7_per_event_and_daily_limits_witness :
    (((updateCostTracking exTime { redisDaily := some 50 } exClosed).daily_cost + 4 ≤ 100 →
      (checkCostApproval 4 exTime { redisDaily := some 50 } exClosed).1.approved = true)
    ∧ (100 < (updateCostTracking exTime { redisDaily := some 50 } exClosed).daily_cost + 4 →
      (checkCostApproval 4 exTime { redisDaily := some 50 } exClosed).1.approved = false
        ∧ (checkCostApproval 4 exTime { redisDaily := some 50 } exClosed).1.warnings
            = ["DAILY_LIMIT_EXCEEDED"])
    ∧ ((checkCostApproval 6 exTime { redisDaily := some 50 } exClosed).1.approved = false
      ∧ (checkCostApproval 6 exTime { redisDaily := some 50 } exClosed).1.warnings
          = ["PER_EVENT_LIMIT_EXCEEDED"]))
    ∧ (((updateCostTracking exTime exEnv exClosed).daily_cost + 4 ≤ 100 →
      (checkCostApproval 4 exTime exEnv exClosed).1.approved = true)
    ∧ (100 < (updateCostTracking exTime exEnv exClosed).daily_cost + 4 →
      (checkCostApproval 4 exTime exEnv exClosed).1.approved = false
        ∧ (checkCostApproval 4 exTime exEnv exClosed).1.warnings
            = ["DAILY_LIMIT_EXCEEDED"])
    ∧ ((checkCostApproval 6 exTime exEnv exClosed).1.approved = false
      ∧ (checkCostApproval 6 exTime exEnv exClosed).1.warnings
          = ["PER_EVENT_LIMIT_EXCEEDED"])) :=
  ⟨c7_per_event_and_daily_limits exClosed exTime { redisDaily := some 50 }
      rfl rfl rfl rfl
      (by rw [exClosed_update50_daily_cost, exClosed_update50_hourly_cost]; norm_num),
   c7_per_event_and_daily_limits exClosed exTime exEnv
      rfl rfl rfl rfl
      (by rw [exClosed_update_daily_cost, exClosed_update_hourly_cost]; norm_num)⟩

/-- **C10.** `reset_circuit_breaker` with any key other than the single
hard-coded admin key reports failure and leaves the entire breaker state
(including `is_shutdown`, `shutdown_reason` and all cost counters)
unchanged; the exact hard-coded key clears OPEN to CLOSED and touches
nothing else. -/
theorem c10_reset_requires_exact_admin_key (key : String) (st : BreakerState) :
    (key ≠ "admin_reset_key_placeholder" →
      (resetCircuitBreaker key st).1.success = false
        ∧ (resetCircuitBreaker key st).2 = st)
    ∧ (resetCircuitBreaker "admin_reset_key_placeholder" st).1.success = true
    ∧ (resetCircuitBreaker "admin_reset_key_placeholder" st).2
        = { st with is_shutdown := false, shutdown_reason := none } := by
  refine ⟨?_, ?_, ?_⟩
  · intro hk
    simp only [resetCircuitBreaker, if_pos hk]
    exact ⟨by trivial, by trivial⟩
  · simp only [resetCircuitBreaker, if_neg (not_not_intro rfl)]
  · simp only [resetCircuitBreaker, if_neg (not_not_intro rfl)]

/-- Witness for C10 at a wrong key `"hacker"` and the OPEN example
state. -/
theorem c10_reset_requires_exact_admin_key_witness :
    ((resetCircuitBreaker "hacker" exOpen).1.success = false
      ∧ (resetCircuitBreaker "hacker" exOpen).2 = exOpen)
    ∧ (resetCircuitBreaker "admin_reset_key_placeholder" exOpen).1.success = true
    ∧ (resetCircuitBreaker "admin_reset_key_placeholder" exOpen).2
        = { exOpen with is_shutdown := false, shutdown_reason := none } :=
  ⟨(c10_reset_requires_exact_admin_key "hacker" exOpen).1 (by decide),
   (c10_reset_requires_exact_admin_key "hacker" exOpen).2.1,
   (c10_reset_requires_exact_admin_key "hacker" exOpen).2.2⟩

end CostBreaker

namespace Tracker

/-- The `ViolationSeverity` enum of `violation_tracker.py`. -/
inductive ViolationSeverity where
  | low
  | medium
  | high
  | critical
  deriving DecidableEq, Repr

/-- The `EnforcementAction` enum of `violation_tracker.py`. -/
inductive EnforcementAction where
  | warning
  | content_block
  | messaging_restriction
  | account_suspension
  | permanent_ban
  | admin_alert
  deriving DecidableEq, Repr

/-- `ViolationTracker.severity_multipliers`. -/
def severityMultipliers : ViolationSeverity → Nat
  | .low => 1
  | .medium => 2
  | .high => 3
  | .critical => 5

/-- One entry of the `escalation_rules` dict. -/
structure EscalationRule where
  action : EnforcementAction
  duration_hours : Option Nat
  description : String
  deriving DecidableEq, Repr

/-- `ViolationTracker.escalation_rules`: the dict keyed by the integers
1–4. -/
def escalationRules : Nat → Option EscalationRule
  | 1 => some ⟨.warning, none, "First violation - warning issued"⟩
  | 2 => some ⟨.messaging_restriction, some 24,
      "Second violation - 24h messaging restriction"⟩
  | 3 => some ⟨.account_suspension, some 168,
      "Third violation - 1 week account suspension"⟩
  | 4 => some ⟨.permanent_ban, none, "Fourth violation - permanent ban"⟩
  | _ => none

/-- `max(self.escalation_rules.keys())`. -/
def maxEscalationLevel : Nat := 4

/-- The `ViolationRecord` dataclass.  Timestamps are modelled as seconds
since the epoch. -/
structure ViolationRecord where
  id : String
  user_id : String
  violation_type : String
  severity : ViolationSeverity
  content : String
  detection_method : String
  timestamp : Nat
  action_taken : EnforcementAction
  escalation_level : Nat
  resolved : Bool := false
  deriving DecidableEq, Repr

/-- One row of the `SELECT ... FROM security_violations` result in
`get_user_violation_profile` (the selected columns). -/
structure StoredRow where
  id : String
  violation_type : String
  severity : ViolationSeverity
  action_taken : EnforcementAction
  escalation_level : Nat
  timestamp : Nat
  resolved : Bool
  deriving DecidableEq, Repr

/-- The `UserViolationProfile` dataclass. -/
structure UserViolationProfile where
  user_id : String
  total_violations : Nat
  escalation_level : Nat
  last_violation : Option Nat
  account_status : String
  violations : List ViolationRecord
  deriving DecidableEq, Repr

/-- Observable behaviour of the external Persistent Store / Event Bus
(spec §6: external, out of scope) during one tracker call, plus the
generated uuid and the clock. -/
structure TrackerWorld where
  /-- Rows returned by the violation-history SELECT; `none` models the
  query raising (caught by `get_user_violation_profile`). -/
  historyRead : Option (List StoredRow)
  /-- The redis `user:restrictions:*`, `user:suspension:*` and
  `user:ban:*` flags read by `_get_account_status`. -/
  restricted : Bool
  suspended : Bool
  banned : Bool
  /-- Whether those redis reads succeed (`_get_account_status` answers
  `"unknown"` when its own `try` fails). -/
  statusReadOk : Bool
  /-- Whether the INSERT of `_store_violation_record` succeeds. -/
  insertOk : Bool
  /-- The `uuid.uuid4()` value. -/
  freshId : String
  /-- `datetime.utcnow()` in seconds. -/
  now : Nat
  deriving DecidableEq, Repr

/-- `ViolationTracker._get_account_status` (its `escalation_level`
argument is unused in the source body). -/
def getAccountStatus (w : TrackerWorld) : String :=
  if !w.statusReadOk then "unknown"
  else if w.restricted then "restricted"
  else if w.suspended then "suspended"
  else if w.banned then "banned"
  else "active"

/-- Reconstruction of a `ViolationRecord` from a stored row, as done in
the row loop of `get_user_violation_profile`. -/
def rowToRecord (user_id : String) (r : StoredRow) : ViolationRecord where
  id := r.id
  user_id := user_id
  violation_type := r.violation_type
  severity := r.severity
  content := "[STORED_CONTENT]"
  detection_method := "stored"
  timestamp := r.timestamp
  action_taken := r.action_taken
  escalation_level := r.escalation_level
  resolved := r.resolved

/-- `ViolationTracker.get_user_violation_profile`: on a store read
failure the `except` branch returns a fresh default profile (level 0,
status `"active"`); otherwise the escalation level is the maximum level
recorded in the returned rows and `last_violation` the latest
timestamp. -/
def getUserViolationProfile (w : TrackerWorld) (user_id : String) :
    UserViolationProfile :=
  match w.historyRead with
  | none =>
    { user_id := user_id, total_violations := 0, escalation_level := 0,
      last_violation := none, account_status := "active", violations := [] }
  | some rows =>
    let violations := rows.map (rowToRecord user_id)
    let level := rows.foldl
      (fun acc r => if acc < r.escalation_level then r.escalation_level else acc) 0
    let last := rows.foldl
      (fun acc r => match acc with
        | none => some r.timestamp
        | some t => if t < r.timestamp then some r.timestamp else acc) none
    { user_id := user_id, total_violations := violations.length,
      escalation_level := level, last_violation := last,
      account_status := getAccountStatus w, violations := violations }

/-- Observable side effects of one `process_violation` call on the store
and the notification channels. -/
inductive Effect where
  /-- `_store_violation_record` ran; the argument is its return value
  (`false` when the INSERT raised and was caught). -/
  | store_insert (ok : Bool)
  /-- `_apply_enforcement_action` dispatched this action. -/
  | enforcement (a : EnforcementAction)
  /-- The user's authoritative escalation level was persisted. -/
  | level_update (level : Nat)
  /-- `_send_admin_alert` ran (high/critical severities). -/
  | admin_alert
  deriving DecidableEq, Repr

/-- `ViolationTracker.process_violation`.  All inner helpers catch their
own exceptions (`_store_violation_record` returns `False` on a failed
INSERT, `_apply_enforcement_action` returns `False` on a failed delivery)
and `process_violation` ignores both return values; the `.error` branch
(the outer `except`/`raise`) is reachable only if the ladder lookup
`escalation_rules[new_escalation_level]` missed, which the theorems below
show cannot happen.

Modelled from the spec: the call `self._update_user_escalation_level(...)`
at line 158 names a method defined nowhere in src (in the source as
written it raises `AttributeError`, which the outer `except` re-raises);
spec §4.2 step 8 specifies it as "Update and persist the user's
authoritative `escalation_level` to `new_level`", modelled here as the
`Effect.level_update` store effect.  Likewise `_log_enforcement_action`
(line 303) is missing from src; per spec §4.2 steps 5–6 it only appends
to the audit trail, and its failure is caught inside
`_apply_enforcement_action`, so it contributes no modelled effect. -/
def processViolation (w : TrackerWorld) (user_id violation_type content : String)
    (severity : ViolationSeverity) (detection_method : String := "automated") :
    Except String (ViolationRecord × List Effect) :=
  let profile := getUserViolationProfile w user_id
  let points := severityMultipliers severity
  let newLevel := min (profile.escalation_level + points) maxEscalationLevel
  match escalationRules newLevel with
  | none => Except.error "KeyError"
  | some rule =>
    let record : ViolationRecord :=
      { id := w.freshId, user_id := user_id, violation_type := violation_type,
        severity := severity, content := content.take 500,
        detection_method := detection_method, timestamp := w.now,
        action_taken := rule.action, escalation_level := newLevel }
    let effs := [Effect.store_insert w.insertOk,
                 Effect.enforcement rule.action,
                 Effect.level_update newLevel]
      ++ (if severity = .high ∨ severity = .critical then [Effect.admin_alert] else [])
    Except.ok (record, effs)

/-- The capped level formula always lands on a rung of the ladder. -/
theorem escalationRules_isSome (l : Nat) (s : ViolationSeverity) :
    (escalationRules (min (l + severityMultipliers s) maxEscalationLevel)).isSome = true := by
  have h1 : 1 ≤ min (l + severityMultipliers s) maxEscalationLevel := by
    cases s <;> simp [severityMultipliers, maxEscalationLevel]
  have h2 : min (l + severityMultipliers s) maxEscalationLevel ≤ 4 :=
    min_le_right _ _
  set n := min (l + severityMultipliers s) maxEscalationLevel with hn
  interval_cases n <;> rfl

/-- The INSERT of `_store_violation_record` as seen by the next call's
SELECT: the stored columns of the new record. -/
def recordToRow (r : ViolationRecord) : StoredRow where
  id := r.id
  violation_type := r.violation_type
  severity := r.severity
  action_taken := r.action_taken
  escalation_level := r.escalation_level
  timestamp := r.timestamp
  resolved := r.resolved

/-- A reliable store after one more insert (`ORDER BY timestamp DESC`
puts the newest row first). -/
def stepWorld (w : TrackerWorld) (r : ViolationRecord) : TrackerWorld :=
  { w with historyRead := some (recordToRow r :: w.historyRead.getD []) }

/-- A sequence of `process_violation` calls for one user against a
reliable store: each call's inserted record is visible to the next
call's profile load. -/
def runSeq (w : TrackerWorld) (user : String) :
    List ViolationSeverity → List ViolationRecord
  | [] => []
  | s :: rest =>
    match processViolation w user "contact_sharing" "excerpt" s with
    | .error _ => []
    | .ok (r, _) => r :: runSeq (stepWorld w r) user rest

/-- Example world: a reachable, reliable store with no prior history for
the user. -/
def exWorld : TrackerWorld where
  historyRead := some []
  restricted := false
  suspended := false
  banned := false
  statusReadOk := true
  insertOk := true
  freshId := "3f2504e0-4f89-11d3-9a0c-0305e82c3301"
  now := 1700000000

/-- Example world whose violation-history SELECT raises. -/
def exWorldReadFail : TrackerWorld :=
  { exWorld with historyRead := none }

/-- Example world whose INSERT into `security_violations` raises. -/
def exWorldInsertFail : TrackerWorld :=
  { exWorld with insertOk := false }

/-- **C4.** Each `process_violation` call escalates by the fixed
severity table (low = 1, medium = 2, high = 3, critical = 5) capped at
level 4, and picks the ladder action for the new level; consequently
four consecutive low-severity violations from level 0 produce levels
1, 2, 3, 4 — permanent ban exactly at the fourth call — while a single
critical violation jumps straight to level 4 (permanent ban). -/
theorem c4_escalation_levels_and_ladder
    (w : TrackerWorld) (user vt content : String) (sev : ViolationSeverity) :
    (∃ rule,
      escalationRules (min ((getUserViolationProfile w user).escalation_level
          + severityMultipliers sev) maxEscalationLevel) = some rule
      ∧ (processViolation w user vt content sev).toOption.map
          (fun p => p.1.escalation_level)
          = some (min ((getUserViolationProfile w user).escalation_level
              + severityMultipliers sev) maxEscalationLevel)
      ∧ (processViolation w user vt content sev).toOption.map
          (fun p => p.1.action_taken) = some rule.action)
    ∧ ((runSeq exWorld "u1" [.low, .low, .low, .low]).map
        (fun r => r.escalation_level) = [1, 2, 3, 4]
      ∧ (runSeq exWorld "u1" [.low, .low, .low, .low]).map
          (fun r => r.action_taken)
          = [.warning, .messaging_restriction, .account_suspension, .permanent_ban]
      ∧ (runSeq exWorld "u1" [.critical]).map (fun r => r.escalation_level) = [4]
      ∧ (runSeq exWorld "u1" [.critical]).map (fun r => r.action_taken)
          = [.permanent_ban]) := by
  constructor
  · obtain ⟨rule, hrule⟩ := Option.isSome_iff_exists.mp
      (escalationRules_isSome ((getUserViolationProfile w user).escalation_level) sev)
    refine ⟨rule, hrule, ?_, ?_⟩
    · simp only [processViolation, hrule, Except.toOption, Option.map]
    · simp only [processViolation, hrule, Except.toOption, Option.map]
  · exact ⟨by decide, by decide, by decide, by decide⟩

/-- **C9.** When the violation-history SELECT fails,
`get_user_violation_profile` returns a fresh default profile (level 0,
no violations, status `"active"`), and a subsequent `process_violation`
for that user computes its new level from 0 — the escalation path fails
open on store read errors. -/
theorem c9_profile_read_failure_fails_open
    (w : TrackerWorld) (h : w.historyRead = none)
    (user vt content : String) (sev : ViolationSeverity) :
    getUserViolationProfile w user
      = { user_id := user, total_violations := 0, escalation_level := 0,
          last_violation := none, account_status := "active", violations := [] }
    ∧ (processViolation w user vt content sev).toOption.map
        (fun p => p.1.escalation_level)
        = some (min (severityMultipliers sev) maxEscalationLevel) := by
  have hp : getUserViolationProfile w user
      = { user_id := user, total_violations := 0, escalation_level := 0,
          last_violation := none, account_status := "active", violations := [] } := by
    simp only [getUserViolationProfile, h]
  refine ⟨hp, ?_⟩
  obtain ⟨rule, hrule⟩ := Option.isSome_iff_exists.mp
    (escalationRules_isSome ((getUserViolationProfile w user).escalation_level) sev)
  have h0 : (getUserViolationProfile w user).escalation_level = 0 := by rw [hp]
  rw [h0] at hrule
  simp only [processViolation, hp, Nat.zero_add] at hrule ⊢
  simp only [hrule, Except.toOption, Option.map]

/-- Witness for C9 at the concrete failing-read world. -/
theorem c9_profile_read_failure_fails_open_witness :
    getUserViolationProfile exWorldReadFail "user42"
      = { user_id := "user42", total_violations := 0, escalation_level := 0,
          last_violation := none, account_status := "active", violations := [] }
    ∧ (processViolation exWorldReadFail "user42" "contact_sharing" "excerpt"
        ViolationSeverity.low).toOption.map (fun p => p.1.escalation_level)
        = some (min (severityMultipliers ViolationSeverity.low) maxEscalationLevel) :=
  c9_profile_read_failure_fails_open exWorldReadFail rfl
    "user42" "contact_sharing" "excerpt" ViolationSeverity.low

/-- **C2.** When the INSERT of the new `ViolationRecord` fails,
`_store_violation_record` catches the exception and returns `False`;
`process_violation` ignores that value, still applies enforcement, still
persists the new escalation level, and returns the record — no error
surfaces to the caller, contradicting the specified fatal-persistence
semantics. -/
theorem c2_store_failure_swallowed
    (w : TrackerWorld) (h : w.insertOk = false)
    (user vt content : String) (sev : ViolationSeverity) :
    ∃ r effs, processViolation w user vt content sev = Except.ok (r, effs)
      ∧ Effect.store_insert false ∈ effs
      ∧ Effect.enforcement r.action_taken ∈ effs
      ∧ Effect.level_update r.escalation_level ∈ effs := by
  obtain ⟨rule, hrule⟩ := Option.isSome_iff_exists.mp
    (escalationRules_isSome ((getUserViolationProfile w user).escalation_level) sev)
  refine ⟨{ id := w.freshId, user_id := user, violation_type := vt,
            severity := sev, content := content.take 500,
            detection_method := "automated", timestamp := w.now,
            action_taken := rule.action,
            escalation_level := min ((getUserViolationProfile w user).escalation_level
              + severityMultipliers sev) maxEscalationLevel },
          [Effect.store_insert w.insertOk,
           Effect.enforcement rule.action,
           Effect.level_update (min ((getUserViolationProfile w user).escalation_level
             + severityMultipliers sev) maxEscalationLevel)]
            ++ (if sev = .high ∨ sev = .critical then [Effect.admin_alert] else []),
          ?_, ?_, ?_, ?_⟩
  · simp only [processViolation, hrule]
  · simp [h]
  · simp
  · simp

/-- Witness for C2 at the concrete failing-insert world. -/
theorem c2_store_failure_swallowed_witness :
    ∃ r effs, processViolation exWorldInsertFail "user42" "contact_sharing"
        "call me at 555-123-4567" ViolationSeverity.low = Except.ok (r, effs)
      ∧ Effect.store_insert false ∈ effs
      ∧ Effect.enforcement r.action_taken ∈ effs
      ∧ Effect.level_update r.escalation_level ∈ effs :=
  c2_store_failure_swallowed exWorldInsertFail rfl
    "user42" "contact_sharing" "call me at 555-123-4567" ViolationSeverity.low

end Tracker

namespace ContactFilter

/-!
The scanner of `contact_filter.py` is a list of `re` patterns per layer,
run with `re.finditer(pattern, content, re.IGNORECASE)`.  The engine
below reproduces the `re` semantics the patterns rely on: ordered
alternation, greedy quantifiers with backtracking, leftmost
non-overlapping iteration, word boundaries, and case-insensitive
matching.  All scanned inputs are ASCII text, so the character classes
are the ASCII readings of `\d`, `\w`, `\s` and the explicit ranges.
-/

/-- `\d`. -/
def isDigitChar (c : Char) : Bool := c.isDigit

/-- `\w` on ASCII text. -/
def isWordChar (c : Char) : Bool := c.isAlphanum || c = '_'

/-- `\s` on ASCII text. -/
def isSpaceChar (c : Char) : Bool :=
  c = ' ' || c = '\t' || c = '\n' || c = '\x0d' || c = '\x0b' || c = '\x0c'

/-- Python `str.lower` on ASCII text. -/
def pyLower (c : Char) : Char := c.toLower

/-- Case-insensitive character comparison (`re.IGNORECASE`). -/
def charEqCI (a b : Char) : Bool := a.toLower = b.toLower

/-- Regular-expression fragments.  `rep p lo hi` is a greedy `{lo,hi}`
repetition of a single-character class (`hi = none` when unbounded);
every unbounded quantifier in the source patterns repeats a
single-character class, so this shape covers them exactly.  `alt` is
Python's ordered alternation, `opt` the greedy `?`, `wb` the `\b`
assertion, `lit` a case-insensitive literal. -/
inductive RE where
  | eps
  | cls (p : Char → Bool)
  | lit (s : String)
  | seq (a b : RE)
  | alt (a b : RE)
  | opt (a : RE)
  | rep (p : Char → Bool) (lo : Nat) (hi : Option Nat)
  | wb

/-- A matcher state: the previously consumed character (for `\b`) and the
remaining input. -/
structure MState where
  prev : Option Char
  rest : List Char

/-- Candidate consumption counts of a greedy class repetition, longest
first. -/
def repCounts (p : Char → Bool) (lo : Nat) (hi : Option Nat) (rest : List Char) :
    List Nat :=
  let run := (rest.takeWhile p).length
  let k := match hi with
    | some h => min run h
    | none => run
  (List.range (k + 1)).reverse.filter (fun n => lo ≤ n)

/-- Consume `n` characters. -/
def consume (n : Nat) (s : MState) : MState :=
  match (s.rest.take n).getLast? with
  | some c => { prev := some c, rest := s.rest.drop n }
  | none => s

/-- Match a case-insensitive literal. -/
def mlit : List Char → MState → List MState
  | [], s => [s]
  | c :: cs, s =>
    match s.rest with
    | [] => []
    | d :: r => if charEqCI c d then mlit cs { prev := some d, rest := r } else []

/-- All ways a fragment can match a prefix of the state's input, in
backtracking priority order (the head is the match Python's engine
commits to). -/
def mrun : RE → MState → List MState
  | .eps, s => [s]
  | .cls p, s =>
    match s.rest with
    | [] => []
    | c :: r => if p c then [{ prev := some c, rest := r }] else []
  | .lit t, s => mlit t.data s
  | .seq a b, s => (mrun a s).flatMap (mrun b)
  | .alt a b, s => mrun a s ++ mrun b s
  | .opt a, s => mrun a s ++ [s]
  | .rep p lo hi, s => (repCounts p lo hi s.rest).map (fun n => consume n s)
  | .wb, s =>
    let prevW := match s.prev with
      | some c => isWordChar c
      | none => false
    let nextW := match s.rest with
      | c :: _ => isWordChar c
      | [] => false
    if prevW ≠ nextW then [s] else []

/-- Length of the match Python commits to at this position, if any. -/
def firstMatchLen (re : RE) (prev : Option Char) (rest : List Char) : Option Nat :=
  match mrun re { prev := prev, rest := rest } with
  | [] => none
  | s :: _ => some (rest.length - s.rest.length)

/-- Scan loop of `re.finditer`: leftmost matches, non-overlapping, an
empty match advances the scan position by one. -/
def findIterAux (re : RE) (s : List Char) : Nat → Nat → List (Nat × Nat)
  | _, 0 => []
  | i, fuel + 1 =>
    if s.length < i then []
    else
      let prev := if i = 0 then none else (s.take i).getLast?
      match firstMatchLen re prev (s.drop i) with
      | none => findIterAux re s (i + 1) fuel
      | some 0 => (i, i) :: findIterAux re s (i + 1) fuel
      | some (n + 1) => (i, i + n + 1) :: findIterAux re s (i + n + 1) fuel

/-- The `(start, stop)` spans of `re.finditer(pattern, content)`. -/
def findIter (re : RE) (s : List Char) : List (Nat × Nat) :=
  findIterAux re s 0 (s.length + 1)

/-- Concatenation of a pattern sequence. -/
def rcat (l : List RE) : RE := l.foldr RE.seq RE.eps

/-- Ordered alternation of case-insensitive literals, e.g.
`(?:call|text|phone)`. -/
def ralts : List String → RE
  | [] => RE.lit ""
  | [x] => RE.lit x
  | x :: xs => RE.alt (RE.lit x) (ralts xs)

/-- `\d`. -/
def d1 : RE := RE.cls isDigitChar

/-- `\d{n}`. -/
def dRep (n : Nat) : RE := RE.rep isDigitChar n (some n)

/-- `\d+`. -/
def dPlus : RE := RE.rep isDigitChar 1 none

/-- `\s*`. -/
def ws0 : RE := RE.rep isSpaceChar 0 none

/-- `\s+`. -/
def ws1 : RE := RE.rep isSpaceChar 1 none

/-- A single case-insensitive literal character. -/
def chr (c : Char) : RE := RE.cls (charEqCI c)

/-- `[-.]`. -/
def dashDot (c : Char) : Bool := c = '-' || c = '.'

/-- `[-.\s]`. -/
def dashDotSpace (c : Char) : Bool := c = '-' || c = '.' || isSpaceChar c

/-- `[\s:]`. -/
def spaceColon (c : Char) : Bool := isSpaceChar c || c = ':'

/-- `[\s-]` and `[-\s]`. -/
def spaceDash (c : Char) : Bool := isSpaceChar c || c = '-'

/-- `[^\d\w]`. -/
def notDigitWord (c : Char) : Bool := !(isDigitChar c || isWordChar c)

/-- `[^\w\s]`. -/
def notWordSpace (c : Char) : Bool := !(isWordChar c || isSpaceChar c)

/-- `[^\w\d\s]`. -/
def notWordDigitSpace (c : Char) : Bool :=
  !(isWordChar c || isDigitChar c || isSpaceChar c)

/-- `[A-Za-z0-9._%+-]`. -/
def emailLocalChar (c : Char) : Bool :=
  c.isAlphanum || c = '.' || c = '_' || c = '%' || c = '+' || c = '-'

/-- `[A-Za-z0-9.-]`. -/
def emailDomainChar (c : Char) : Bool := c.isAlphanum || c = '.' || c = '-'

/-- `[A-Z|a-z]` (the source classes literally include `|`). -/
def alphaPipeChar (c : Char) : Bool := c.isAlpha || c = '|'

/-- `[A-Za-z0-9_]`. -/
def alnumUnderscoreChar (c : Char) : Bool := c.isAlphanum || c = '_'

/-- `[A-Za-z0-9._]`. -/
def alnumDotUnderscoreChar (c : Char) : Bool := c.isAlphanum || c = '.' || c = '_'

/-- `[\s:/@]`. -/
def socialSepChar (c : Char) : Bool := isSpaceChar c || c = ':' || c = '/' || c = '@'

/-- `[0-9️⃣]`: the digits plus the keycap codepoints U+FE0F and
U+20E3 that appear in the class. -/
def digitKeycapChar (c : Char) : Bool :=
  c.isDigit || c = '\uFE0F' || c = '\u20E3'

/-- `[\'s]` under IGNORECASE. -/
def aposS (c : Char) : Bool := c = '\'' || c.toLower = 's'

/-- `[:]`. -/
def colonChar (c : Char) : Bool := c = ':'

/-- The spelled-out digit alternation
`(?:zero|one|two|three|four|five|six|seven|eight|nine)`. -/
def digitWords : List String :=
  ["zero", "one", "two", "three", "four", "five", "six", "seven", "eight", "nine"]

/-- `ContactProtectionFilter._initialize_phone_patterns` (source
order). -/
def phonePatterns : List RE := [
  rcat [.wb, dRep 3, .rep dashDot 0 (some 1), dRep 3, .rep dashDot 0 (some 1),
    dRep 4, .wb],
  rcat [chr '(', dRep 3, chr ')', ws0, dRep 3, .rep dashDot 0 (some 1), dRep 4],
  rcat [.wb, dRep 3, ws1, dRep 3, ws1, dRep 4, .wb],
  rcat [.lit "+1", .rep dashDotSpace 0 (some 1), dRep 3, .rep dashDotSpace 0 (some 1),
    dRep 3, .rep dashDotSpace 0 (some 1), dRep 4],
  rcat [chr '+', .rep isDigitChar 1 (some 3), .rep dashDotSpace 0 (some 1),
    .rep isDigitChar 3 (some 4), .rep dashDotSpace 0 (some 1),
    .rep isDigitChar 3 (some 4), .rep dashDotSpace 0 (some 1),
    .rep isDigitChar 3 (some 4)],
  rcat [.wb, dRep 3, .rep notDigitWord 1 (some 3), dRep 3,
    .rep notDigitWord 1 (some 3), dRep 4, .wb],
  rcat [ralts ["call", "text", "phone"], .rep spaceColon 0 none, dRep 3],
  rcat [ralts ["five", "six", "seven", "eight", "nine"], .rep spaceDash 0 none,
    ralts digitWords, .rep spaceDash 0 none, ralts digitWords],
  rcat [.rep digitKeycapChar 3 none, .rep spaceDash 0 none,
    .rep digitKeycapChar 3 none, .rep spaceDash 0 none, .rep digitKeycapChar 3 none],
  rcat [d1, ws1, d1, ws1, d1, ws1, .rep spaceDash 0 none, d1, ws1, d1, ws1, d1, ws1,
    .rep spaceDash 0 none, d1, ws1, d1, ws1, d1, ws1, d1],
  rcat [dRep 3, .cls notWordSpace, dRep 3, .cls notWordSpace, dRep 4]
]

/-- `ContactProtectionFilter._initialize_email_patterns` (source
order). -/
def emailPatterns : List RE := [
  rcat [.wb, .rep emailLocalChar 1 none, chr '@', .rep emailDomainChar 1 none,
    chr '.', .rep alphaPipeChar 2 none, .wb],
  rcat [.wb, .rep emailLocalChar 1 none, ws0, .opt (chr '['), .lit "at",
    .opt (chr ']'), ws0, .rep emailDomainChar 1 none, ws0, .opt (chr '['),
    .lit "dot", .opt (chr ']'), ws0, .rep alphaPipeChar 2 none, .wb],
  rcat [.wb, .rep emailLocalChar 1 none, ws0, chr '@', ws0,
    .rep emailDomainChar 1 none, ws0, chr '.', ws0, .rep alphaPipeChar 2 none, .wb],
  rcat [ralts ["email", "gmail", "yahoo", "hotmail", "outlook"],
    .rep spaceColon 0 none, .rep emailLocalChar 1 none],
  rcat [.wb, .rep emailLocalChar 1 none, ws1, .lit "at", ws1,
    .rep emailDomainChar 1 none, ws1, .lit "dot", ws1, .rep alphaPipeChar 2 none, .wb],
  rcat [.wb, .rep emailLocalChar 1 none, ws0, .lit "[at]", ws0,
    .rep emailDomainChar 1 none, ws0, .lit "[dot]", ws0,
    .rep alphaPipeChar 2 none, .wb]
]

/-- `ContactProtectionFilter._initialize_social_patterns` (source
order). -/
def socialPatterns : List RE := [
  rcat [chr '@', .rep alnumUnderscoreChar 1 none],
  rcat [ralts ["instagram", "facebook", "twitter", "linkedin", "snapchat", "tiktok"],
    .rep socialSepChar 0 none, .rep alnumDotUnderscoreChar 1 none],
  rcat [ralts ["find", "follow", "add", "connect"], ws1, .lit "me", ws1, .lit "on",
    ws1, ralts ["instagram", "facebook", "twitter", "linkedin"]],
  rcat [ralts ["fb", "ig", "twitter", "linkedin"], .rep spaceColon 0 none,
    .rep alnumDotUnderscoreChar 1 none],
  rcat [ralts ["dm", "message"], ws1, .lit "me", ws1, .lit "on"]
]

/-- `ContactProtectionFilter._initialize_intent_patterns` (source
order). -/
def intentPatterns : List RE := [
  rcat [ralts ["call", "text", "email", "contact", "reach"], ws1, .lit "me", ws1,
    ralts ["at", "on", "directly"]],
  rcat [ralts ["my", "the"], ws1,
    ralts ["number", "phone", "cell", "email", "contact"]],
  rcat [ralts ["give", "send"], ws1, .lit "me", ws1, ralts ["your", "a"], ws1,
    ralts ["call", "text", "email", "number"]],
  rcat [.lit "let", .rep aposS 0 none, ws1, ralts ["talk", "chat", "discuss"], ws1,
    ralts ["offline", "directly", "outside", "privately"]],
  rcat [ralts ["bypass", "skip", "avoid"], ws1, .opt (rcat [.lit "the", ws1]),
    .lit "platform"],
  rcat [ralts ["direct", "personal", "private"], ws1,
    ralts ["contact", "communication"]],
  rcat [.opt (rcat [.lit "take", ws1, .lit "this", ws1]),
    ralts ["offline", "outside"]],
  rcat [ralts ["whatsapp", "telegram", "signal", "discord", "messenger"], ws1,
    .lit "me"],
  rcat [ralts ["send", "share"], ws1, ralts ["your", "my"], ws1,
    ralts ["contact", "info", "details"]],
  rcat [ralts ["meet", "talk"], ws1,
    .alt (.lit "outside") (rcat [.lit "away", ws1, .lit "from"]), ws1,
    ralts ["here", "platform"]],
  rcat [.opt (rcat [.lit "continue", ws1]), ralts ["conversation", "discussion"],
    ws1, ralts ["elsewhere", "privately"]]
]

/-- `ContactProtectionFilter._initialize_obfuscation_patterns` (source
order). -/
def obfuscationPatterns : List RE := [
  rcat [ralts digitWords, .rep spaceDash 0 none, ralts digitWords],
  rcat [d1, ws0, .rep dashDot 0 none, ws0, d1, ws0, .rep dashDot 0 none, ws0, d1],
  rcat [d1, ws0, .cls notWordSpace, ws0, d1],
  rcat [ralts ["gmail", "yahoo", "hotmail"], ws1, ralts ["dot", "period"], ws1,
    ralts ["com", "org", "net"]],
  rcat [.lit "phone", ws0, .opt (rcat [.lit "number", ws0]),
    .opt (rcat [.lit "is", ws0]), .rep colonChar 0 none, ws0, d1],
  rcat [ralts ["call", "text"], ws1, .opt (rcat [.lit "me", ws1]),
    .opt (rcat [.lit "at", ws1]), d1],
  rcat [dPlus, .rep notWordDigitSpace 1 none, dPlus, .rep notWordDigitSpace 1 none,
    dPlus]
]

/-- A detected violation.  Pattern-layer violations carry the
`match.span()` position; context-layer violations
(`contact_imperative` / `contact_provision`) carry none.  The
per-category constant `confidence` and the matched text are never read
by any downstream decision (`_calculate_risk_level` and
`_apply_content_filtering` use only the type and the position) and are
omitted. -/
structure Violation where
  vtype : String
  pos : Option (Nat × Nat)
  deriving DecidableEq, Repr

/-- The shared body of the pattern detectors (`_detect_phones` etc.):
run every pattern of the layer over the content and record a violation
per match. -/
def detectWith (patterns : List RE) (vtype : String) (content : List Char) :
    List Violation :=
  patterns.flatMap
    (fun p => (findIter p content).map (fun sp => { vtype := vtype, pos := some sp }))

/-- `ContactProtectionFilter._detect_phones`. -/
def detectPhones (content : List Char) : List Violation :=
  detectWith phonePatterns "phone_number" content

/-- `ContactProtectionFilter._detect_emails`. -/
def detectEmails (content : List Char) : List Violation :=
  detectWith emailPatterns "email_address" content

/-- `ContactProtectionFilter._detect_contact_intent` (the caller passes
the lowercased content). -/
def detectContactIntent (content : List Char) : List Violation :=
  detectWith intentPatterns "contact_intent" content

/-- Modelled from the spec: `_detect_social_media` is called by
`scan_content` (contact_filter.py line 172) but defined nowhere in src.
Spec §4.1 layer 1 lists social handles as an exact-pattern layer; the
model runs the `social_patterns` table the constructor builds for it,
mirroring the sibling detectors, with the category name `"social_media"`
used by `_get_replacement_text`. -/
def detectSocialMedia (content : List Char) : List Violation :=
  detectWith socialPatterns "social_media" content

/-- Modelled from the spec: `_detect_obfuscation` is called by
`scan_content` (contact_filter.py line 178, on the lowercased content)
but defined nowhere in src.  Spec §4.1 layer 2 lists obfuscation as a
pattern layer; the model runs the `obfuscation_patterns` table the
constructor builds for it, mirroring the sibling detectors, with the
spec's category name `obfuscated` (no replacement entry exists for it,
so redaction falls back to the default placeholder). -/
def detectObfuscation (content : List Char) : List Violation :=
  detectWith obfuscationPatterns "obfuscated" content

/-- Python `content.split('.')`. -/
def splitOnDot : List Char → List (List Char)
  | [] => [[]]
  | c :: r =>
    let rest := splitOnDot r
    if c = '.' then [] :: rest
    else
      match rest with
      | h :: t => (c :: h) :: t
      | [] => [[c]]

/-- Python `str.strip()` on ASCII text. -/
def pyStrip (s : List Char) : List Char :=
  ((s.dropWhile isSpaceChar).reverse.dropWhile isSpaceChar).reverse

/-- Python substring containment (`needle in hay`). -/
def containsSub (hay needle : List Char) : Bool :=
  (List.range (hay.length + 1)).any (fun i => needle.isPrefixOf (hay.drop i))

/-- The imperative-contact phrase list of `_analyze_context`. -/
def imperativePhrases : List String := ["call me", "text me", "email me", "contact me"]

/-- The contact-provision phrase list of `_analyze_context`. -/
def provisionPhrases : List String := ["my number is", "email me at", "reach me at"]

/-- `ContactProtectionFilter._analyze_context`: split into sentences on
`'.'`, strip and lowercase each, and flag imperative and provision
phrases.  These violations carry no position. -/
def analyzeContext (content : List Char) : List Violation :=
  (splitOnDot content).flatMap (fun sentence =>
    let s := (pyStrip sentence).map pyLower
    (if imperativePhrases.any (fun p => containsSub s p.data) then
      [{ vtype := "contact_imperative", pos := none }] else [])
    ++ (if provisionPhrases.any (fun p => containsSub s p.data) then
      [{ vtype := "contact_provision", pos := none }] else []))

/-- `ContactProtectionFilter._get_replacement_text`. -/
def getReplacementText (vtype : String) : String :=
  if vtype = "phone_number" then "[PHONE NUMBER BLOCKED]"
  else if vtype = "email_address" then "[EMAIL BLOCKED]"
  else if vtype = "social_media" then "[SOCIAL MEDIA BLOCKED]"
  else if vtype = "contact_intent" then "[CONTACT REQUEST BLOCKED]"
  else if vtype = "contact_provision" then "[CONTACT INFO BLOCKED]"
  else if vtype = "contact_imperative" then "[CONTACT REQUEST BLOCKED]"
  else "[CONTACT INFO BLOCKED]"

/-- The violations that carry a position, as `(type, start, stop)`. -/
def positioned (vs : List Violation) : List (String × Nat × Nat) :=
  vs.filterMap (fun v => v.pos.map (fun p => (v.vtype, p.1, p.2)))

/-- Insertion step of a stable descending-by-start sort: a new element
goes after every element whose start is at least its own. -/
def insertByStartDesc (x : String × Nat × Nat) :
    List (String × Nat × Nat) → List (String × Nat × Nat)
  | [] => [x]
  | y :: r => if x.2.1 ≤ y.2.1 then y :: insertByStartDesc x r else x :: y :: r

/-- Python's stable `sorted(..., key=position start, reverse=True)`. -/
def sortByStartDesc (l : List (String × Nat × Nat)) : List (String × Nat × Nat) :=
  l.foldl (fun acc x => insertByStartDesc x acc) []

/-- `ContactProtectionFilter._apply_content_filtering`: replace each
positioned violation, in descending order of start offset, by its
placeholder — splicing `filtered[:start] + replacement + filtered[stop:]`
against the *current* (already partially replaced) string, exactly as the
source does. -/
def applyContentFiltering (content : List Char) (vs : List Violation) : List Char :=
  (sortByStartDesc (positioned vs)).foldl
    (fun s v => s.take v.2.1 ++ (getReplacementText v.1).data ++ s.drop v.2.2)
    content

/-- `ContactProtectionFilter._calculate_risk_level`. -/
def calculateRiskLevel (vs : List Violation) : String :=
  if vs.isEmpty then "low"
  else if vs.any (fun v => v.vtype = "phone_number" || v.vtype = "email_address"
      || v.vtype = "contact_provision") then "high"
  else if vs.any (fun v => v.vtype = "contact_intent"
      || v.vtype = "contact_imperative") then "medium"
  else "low"

/-- The scan result dict.  `violation_types` is Python's
`list(set(...))`, whose iteration order is unspecified; it is modelled
as first-occurrence deduplication, and no claim depends on its order.
`user_id`, `content_original` and `scan_timestamp` are pass-through
fields and omitted. -/
structure ScanResult where
  violations_found : Bool
  violation_types : List String
  detected_patterns : List Violation
  risk_level : String
  content_filtered : String
  deriving DecidableEq, Repr

/-- `ContactProtectionFilter.scan_content` with the two missing detector
methods modelled from the spec (see `detectSocialMedia` and
`detectObfuscation`); layers run in source order, intent and obfuscation
on the lowercased content, and redaction applies to the original
content.  The fire-and-forget `_log_violation` call has no effect on the
returned result. -/
def scanContentModel (content : String) : ScanResult :=
  let cs := content.data
  let lower := cs.map pyLower
  let allViolations :=
    detectPhones cs ++ detectEmails cs ++ detectSocialMedia cs
      ++ detectContactIntent lower ++ detectObfuscation lower ++ analyzeContext cs
  if allViolations.isEmpty then
    { violations_found := false, violation_types := [], detected_patterns := [],
      risk_level := "low", content_filtered := content }
  else
    { violations_found := true,
      violation_types := (allViolations.map (fun v => v.vtype)).eraseDups,
      detected_patterns := allViolations,
      risk_level := calculateRiskLevel allViolations,
      content_filtered := ⟨applyContentFiltering cs allViolations⟩ }

/-- `scan_content` as literally written in src: after layer 1's phone
and email detectors, line 172 invokes `self._detect_social_media`, a
method `ContactProtectionFilter` never defines, so every call raises
`AttributeError` before a result is assembled (there is no `try` in
`scan_content`). -/
def scanContentSrc (content : String) : Except String ScanResult :=
  let cs := content.data
  let _phone := detectPhones cs
  let _email := detectEmails cs
  Except.error "AttributeError: _detect_social_media"

/-- **C8.** `scan_content` as written is not total: the very first call
of layer 1's third detector names the undefined method
`_detect_social_media`, so every invocation — on empty, benign or
malicious input alike — raises `AttributeError` instead of returning a
`ScanResult`. -/
theorem c8_scan_always_raises (content : String) :
    scanContentSrc content
      = Except.error "AttributeError: _detect_social_media" := rfl

set_option maxRecDepth 4000 in
/-- **C5 counterexample.** Redaction is not idempotent, in two concrete
ways: the placeholder `"[EMAIL BLOCKED]"` is itself detected as an
`email_address` violation (it matches the keyword pattern
`(?:email|gmail|...)[\s:]*[A-Za-z0-9._%+-]+`), and the input
`"call me."` is flagged only by the positionless context layer, comes
back unredacted, and is re-detected in full by a second scan. -/
theorem c5_counterexample_redaction_not_idempotent :
    (scanContentModel "[EMAIL BLOCKED]").violations_found = true
    ∧ (scanContentModel "[EMAIL BLOCKED]").violation_types = ["email_address"]
    ∧ (scanContentModel "call me.").violations_found = true
    ∧ (scanContentModel "call me.").content_filtered = "call me."
    ∧ (scanContentModel
        ((scanContentModel "call me.").content_filtered)).violations_found = true := by
  decide

set_option maxRecDepth 4000 in
/-- **C5 amended.** Four of the five placeholder strings scan clean, but
the `"[EMAIL BLOCKED]"` placeholder is re-detected as contact data, and
context-layer violations carry no position, are never redacted, and so
are re-detected when the scanner's own output is re-scanned: redaction
is not idempotent. -/
theorem c5_amended_placeholders_mostly_clean :
    (["[PHONE NUMBER BLOCKED]", "[SOCIAL MEDIA BLOCKED]",
      "[CONTACT REQUEST BLOCKED]", "[CONTACT INFO BLOCKED]"].all
        (fun p => !(scanContentModel p).violations_found)) = true
    ∧ (scanContentModel "[EMAIL BLOCKED]").violations_found = true
    ∧ (scanContentModel ((scanContentModel "call me.").content_filtered))
        = scanContentModel "call me." := by
  decide

set_option maxRecDepth 4000 in
/-- **C6 counterexample.** On the canonical input `"555-123-4567"` the
scan does flag a phone number, but the redacted text is not the span
replaced by a fixed placeholder: the eleven overlapping matches are
each spliced at their original offsets into the already-rewritten
string, leaving placeholder debris and the residual digit `'7'` of the
original number. -/
theorem c6_counterexample_residual_digit :
    (scanContentModel "555-123-4567").violations_found = true
    ∧ ((scanContentModel "555-123-4567").content_filtered.data.any isDigitChar) = true
    ∧ (scanContentModel "555-123-4567").content_filtered
        = "[CONTACT INFO BLOCKED]O BLOCKED]ONE NUMBER BLOCKED]R BLOCKED]R BLOCKED]R BLOCKED]NFO BLOCKED]CONTACT INFO BLOCKED]CONTACT INFO BLOCKED]CONTACT INFO BLOCKED]7" := by
  decide

set_option maxRecDepth 4000 in
/-- **C6 amended.** For the canonical phone input `"555-123-4567"`,
`scan` returns `violations_found = true`, a `phone_number` match over
the full span with risk level `high`, and the redacted text no longer
contains the phone number itself — but, because overlapping matches are
replaced at stale offsets, the redaction is garbled rather than a
single fixed placeholder and retains the residual digit `'7'`. -/
theorem c6_amended_phone_detected_but_redaction_garbled :
    (scanContentModel "555-123-4567").violations_found = true
    ∧ "phone_number" ∈ (scanContentModel "555-123-4567").violation_types
    ∧ ({ vtype := "phone_number", pos := some (0, 12) } : Violation)
        ∈ (scanContentModel "555-123-4567").detected_patterns
    ∧ (scanContentModel "555-123-4567").risk_level = "high"
    ∧ containsSub (scanContentModel "555-123-4567").content_filtered.data
        "555-123-4567".data = false
    ∧ ((scanContentModel "555-123-4567").content_filtered.data.any isDigitChar) = true := by
  decide

end ContactFilter
